import Mathlib

/-!
Verification of the document text-extraction utility (scripts/extract_text.py).

The Python source is shallowly embedded: pure transformations become Lean
functions over explicit data; host-environment facts (platform, tool
availability, subprocess results) become record fields; exceptions become
Except values.  Subprocess invocations of the legacy .doc path are recorded
in an explicit trace list so that claims about which backend is attempted
can be stated.
-/

namespace ExtractText

/-- Whitespace test used by the embedding of Python str.strip(). -/
def ws (c : Char) : Bool := c.isWhitespace

/-- Strip leading and trailing whitespace from a character list. -/
def stripChars (l : List Char) : List Char :=
  ((l.dropWhile ws).reverse.dropWhile ws).reverse

/-- Embedding of Python str.strip() with no arguments. -/
def pyStrip (s : String) : String := ⟨stripChars s.data⟩

/-- XML element: tag, text content (None or a string), children in document
order.  Attributes and tail text are irrelevant to the extractor and omitted. -/
inductive Xml where
  | node (tag : String) (text : Option String) (children : List Xml)

instance : Inhabited Xml := ⟨.node "" none []⟩

def Xml.tag : Xml → String
  | .node t _ _ => t

def Xml.text : Xml → Option String
  | .node _ s _ => s

def Xml.children : Xml → List Xml
  | .node _ _ c => c

mutual

/-- Embedding of ElementTree Element.iter(): the element followed by all
descendants in document (preorder) order. -/
def iterNodes : Xml → List Xml
  | .node t s c => .node t s c :: iterChildren c

def iterChildren : List Xml → List Xml
  | [] => []
  | x :: xs => iterNodes x ++ iterChildren xs

end

/-- Embedding of root.findall with a descendant-or-self path for one tag:
all proper descendants of the root carrying the tag, in document order. -/
def findallDesc (root : Xml) (tg : String) : List Xml :=
  (iterChildren root.children).filter (fun n => n.tag == tg)

/-- Qualified tag of a word-processing text run (WORD_NS, tag t). -/
def wT : String :=
  "\x7bhttp://schemas.openxmlformats.org/wordprocessingml/2006/main\x7dt"

/-- Qualified tag of a word-processing explicit tab node. -/
def wTab : String :=
  "\x7bhttp://schemas.openxmlformats.org/wordprocessingml/2006/main\x7dtab"

/-- Qualified tag of a word-processing explicit break node. -/
def wBr : String :=
  "\x7bhttp://schemas.openxmlformats.org/wordprocessingml/2006/main\x7dbr"

/-- Qualified tag of a word-processing carriage-return node. -/
def wCr : String :=
  "\x7bhttp://schemas.openxmlformats.org/wordprocessingml/2006/main\x7dcr"

/-- Qualified tag of a word-processing paragraph node. -/
def wP : String :=
  "\x7bhttp://schemas.openxmlformats.org/wordprocessingml/2006/main\x7dp"

/-- Qualified tag of a drawing text node (DRAWING_NS, tag t). -/
def aT : String :=
  "\x7bhttp://schemas.openxmlformats.org/drawingml/2006/main\x7dt"

/-- Contribution of one node of a paragraph, following the if/elif chain of
extract_docx: a text run with truthy text contributes its text, an explicit
tab node a tab character, a break or carriage-return node a newline, and any
other node nothing. -/
def docxNodePart (n : Xml) : Option String :=
  if n.tag == wT then
    match n.text with
    | some s => if s != "" then some s else none
    | none => none
  else if n.tag == wTab then some "\t"
  else if n.tag == wBr || n.tag == wCr then some "\n"
  else none

/-- Paragraph nodes found by extract_docx: every descendant with the
paragraph tag, in document order. -/
def docxParagraphs (root : Xml) : List Xml :=
  findallDesc root wP

/-- Body of the per-paragraph loop of extract_docx: accumulate the parts
contributed by the nodes of Element.iter(), join, strip. -/
def docxParagraphText (p : Xml) : String :=
  pyStrip (String.join ((iterNodes p).foldl
    (fun ps n => ps ++ (docxNodePart n).toList) []))

/-- Embedding of extract_docx, given the parsed root of word/document.xml:
loop over paragraph nodes, keep the non-empty stripped paragraph texts, join
with single newlines, strip the whole result. -/
def extract_docx (root : Xml) : String :=
  pyStrip (String.intercalate "\n" ((docxParagraphs root).foldl
    (fun acc p =>
      let paragraph_text := docxParagraphText p
      if paragraph_text != "" then acc ++ [paragraph_text] else acc) []))

/-- Paragraph rendering as the specification words it: concatenate the
text-run contents, tabs rendered as a tab and breaks as a newline, and trim. -/
def docxSpecParagraph (p : Xml) : String :=
  pyStrip (String.join ((iterNodes p).filterMap docxNodePart))

/-- Docx extraction as the specification words it: render every paragraph in
document order, trim each, drop the empty ones, join the survivors with
single newlines, trim the whole result. -/
def docxSpecText (root : Xml) : String :=
  pyStrip (String.intercalate "\n"
    (((docxParagraphs root).map docxSpecParagraph).filter (fun t => t != "")))

/-- Substring test on character lists: does the second list contain the first
as a contiguous run. -/
def listContains (sub : List Char) : List Char → Bool
  | [] => sub.isEmpty
  | a :: t => sub.isPrefixOf (a :: t) || listContains sub t

/-- Substring test on strings: strContains s sub is true when sub occurs
contiguously inside s. -/
def strContains (s sub : String) : Bool := listContains sub.data s.data

/-- Exception raised while obtaining a PDF reader: either the library import
failed (backend not installed) or the import succeeded and the reader
construction itself raised (for example on an unreadable or corrupt file). -/
inductive PdfExc where
  | importError
  | otherError
deriving DecidableEq

/-- Outcome of page.extract_text() for one page: the call may raise, or
return None, or return a string. -/
abbrev PdfPage := Except Unit (Option String)

/-- Host facts consumed by extract_pdf: the outcome of constructing a reader
with pypdf and the outcome of constructing one with PyPDF2, each either a
list of pages or the exception that was raised. -/
structure PdfEnv where
  tryPypdf : Except PdfExc (List PdfPage)
  tryPyPDF2 : Except PdfExc (List PdfPage)

/-- Diagnostic raised by extract_pdf when both reader constructions raise. -/
def pdfMissingMsg : String :=
  "Unable to extract .pdf: missing Python PDF library (pypdf / PyPDF2)"

/-- Embedding of the per-page expression page.extract_text() or three
outcomes mapped to text: a raised exception and a None result both yield the
empty string. -/
def pdfPageRawText : PdfPage → String
  | .error _ => ""
  | .ok none => ""
  | .ok (some s) => s

/-- Embedding of the page loop of extract_pdf: strip each page text, keep
the non-empty ones, join with blank lines, strip the whole result. -/
def pdfPagesText (pages : List PdfPage) : String :=
  pyStrip (String.intercalate "\n\n" (pages.foldl
    (fun acc page =>
      let text := pyStrip (pdfPageRawText page)
      if text != "" then acc ++ [text] else acc) []))

/-- Embedding of extract_pdf: construct a reader with pypdf, on any
exception retry with PyPDF2, on a second exception raise the missing-library
RuntimeError; with a reader in hand run the page loop. -/
def extract_pdf (env : PdfEnv) : Except String String :=
  match env.tryPypdf with
  | .ok reader => .ok (pdfPagesText reader)
  | .error _ =>
    match env.tryPyPDF2 with
    | .ok reader => .ok (pdfPagesText reader)
    | .error _ => .error pdfMissingMsg

/-- Success test for an Except value. -/
def exOk {ε α : Type} : Except ε α → Bool
  | .ok _ => true
  | .error _ => false

/-- Test whether a reader-construction outcome is specifically a failed
library import, as opposed to success or any other exception. -/
def failedImport {α : Type} : Except PdfExc α → Bool
  | .error .importError => true
  | _ => false

/-- One entry of the presentation container: its archive name and the parsed
root of its XML payload. -/
structure ZipEntry where
  name : String
  root : Xml

instance : Inhabited ZipEntry := ⟨⟨"", default⟩⟩

/-- Embedding of os.path.basename for slash-separated names: the suffix
after the last slash, computed by restarting a segment accumulator at every
slash. -/
def basename (p : String) : String :=
  ⟨p.data.foldl (fun acc c => if c == '/' then [] else acc ++ [c]) []⟩

/-- Numeric value of a string of decimal digits, as int() computes it. -/
def digitsToNat (l : List Char) : Nat :=
  l.foldl (fun n c => n * 10 + (c.toNat - 48)) 0

/-- Embedding of slide_index: the number formed by the digits embedded in
the basename of the entry name, and 0 when there are no digits. -/
def slide_index (name : String) : Nat :=
  let base := basename name
  let digits := base.data.filter Char.isDigit
  if digits.isEmpty then 0 else digitsToNat digits

/-- Slide-file naming pattern used to select entries of the container: the
name starts with the slide path prefix and ends with the xml suffix. -/
def slideFileFilter (n : String) : Bool :=
  "ppt/slides/slide".data.isPrefixOf n.data && ".xml".data.isSuffixOf n.data

/-- Archive names of the container, in archive order. -/
def namelist (zf : List ZipEntry) : List String := zf.map ZipEntry.name

/-- Entries matching the slide naming pattern, in archive order. -/
def slideNameList (zf : List ZipEntry) : List String :=
  (namelist zf).filter slideFileFilter

/-- Comparison used to sort slide names: ascending slide_index.  The sort of
the source is stable and key-based, which this order reproduces. -/
def slideLe (a b : String) : Bool := decide (slide_index a ≤ slide_index b)

/-- Slide names after the sort by slide_index performed by extract_pptx. -/
def sortedSlideNames (zf : List ZipEntry) : List String :=
  List.mergeSort (slideNameList zf) slideLe

/-- Embedding of zf.read followed by XML parsing: the payload of the first
entry carrying the name.  Names fed to it come from the namelist. -/
def readEntry (zf : List ZipEntry) (name : String) : Xml :=
  ((zf.find? (fun e => e.name == name)).getD default).root

/-- Texts of the drawing-text nodes of one slide that are truthy, in
document order, as the list comprehension of extract_pptx collects them. -/
def slideTexts (root : Xml) : List String :=
  (findallDesc root aT).filterMap (fun t =>
    match t.text with
    | some s => if s != "" then some s else none
    | none => none)

/-- Embedding of extract_pptx: select and sort the slide entries, collect
each slide's truthy text nodes, and for each slide with at least one such
node append the newline-join of its texts, stripped; join the collected
blocks with blank lines and strip the whole result. -/
def extract_pptx (zf : List ZipEntry) : String :=
  pyStrip (String.intercalate "\n\n" ((sortedSlideNames zf).foldl
    (fun acc slide_name =>
      let texts := slideTexts (readEntry zf slide_name)
      if !texts.isEmpty then acc ++ [pyStrip (String.intercalate "\n" texts)]
      else acc) []))

/-- Declarative form of the block list built by extract_pptx: one block per
slide whose truthy-text list is non-empty, in sorted slide order.  A slide
whose texts are all whitespace still contributes a block, which strips to
the empty string. -/
def pptxBlocks (zf : List ZipEntry) : List String :=
  (sortedSlideNames zf).filterMap (fun n =>
    let texts := slideTexts (readEntry zf n)
    if texts.isEmpty then none
    else some (pyStrip (String.intercalate "\n" texts)))

/-- Concrete presentation container used as a counterexample: three slides,
the middle one carrying only whitespace text. -/
def pptxWsZip : List ZipEntry :=
  [⟨"ppt/slides/slide1.xml", .node "sld" none [.node aT (some "A") []]⟩,
   ⟨"ppt/slides/slide2.xml", .node "sld" none [.node aT (some " ") []]⟩,
   ⟨"ppt/slides/slide3.xml", .node "sld" none [.node aT (some "B") []]⟩]

/-- Embedding of Python str.lower() for the ASCII range, applied per
character. -/
def pyLower (s : String) : String := ⟨s.data.map Char.toLower⟩

/-- Error raised by the legacy .doc extractor: either a CalledProcessError
carrying the failing command and its non-zero exit code, propagated by the
checked subprocess runner, or the final RuntimeError. -/
inductive DocErr where
  | calledProcess (cmd : String) (exitCode : Nat)
  | runtimeError (msg : String)
deriving DecidableEq

/-- Host facts consumed by extract_doc_via_system_tools, probed at call
time: the platform, the presence probes of each backend, the outcome of each
backend invocation (stdout or a non-zero exit code), the directory listing
produced by the office-suite conversion, and the decoded content of its
first text file. -/
structure DocEnv where
  isDarwin : Bool
  textutilAtPath : Bool
  textutilRun : Except Nat String
  antiwordWhichOk : Bool
  antiwordRun : Except Nat String
  sofficeWhichOk : Bool
  libreofficeWhichOk : Bool
  sofficeRun : Except Nat String
  convertedNames : List String
  firstTxtContent : String

/-- Single-quote character, kept out of string literals. -/
def sq : String := ⟨[Char.ofNat 39]⟩

/-- Message of the RuntimeError raised when no .doc backend produces text. -/
def docNoToolMsg : String :=
  "Unable to extract .doc on this system. Convert to .docx, or install "
    ++ sq ++ "antiword" ++ sq ++ " or LibreOffice."

/-- Office-suite command selected by the loop over the two candidate names:
the first one whose presence probe succeeds, if any. -/
def sofficeCandidate (env : DocEnv) : Option String :=
  if env.sofficeWhichOk then some "soffice"
  else if env.libreofficeWhichOk then some "libreoffice"
  else none

/-- Embedding of extract_doc_via_system_tools.  The first component is the
result; the second records which backend commands were actually invoked, in
order, so that fallthrough behaviour is observable.  Presence probes do not
appear in the trace; the checked runner turns a non-zero exit into an
immediately propagated CalledProcessError. -/
def extract_doc_via_system_tools (env : DocEnv) :
    Except DocErr String × List String :=
  if env.isDarwin && env.textutilAtPath then
    match env.textutilRun with
    | .ok out => (.ok (pyStrip out), ["/usr/bin/textutil"])
    | .error code => (.error (.calledProcess "/usr/bin/textutil" code), ["/usr/bin/textutil"])
  else if env.antiwordWhichOk then
    match env.antiwordRun with
    | .ok out => (.ok (pyStrip out), ["antiword"])
    | .error code => (.error (.calledProcess "antiword" code), ["antiword"])
  else
    match sofficeCandidate env with
    | some cmd =>
      match env.sofficeRun with
      | .error code => (.error (.calledProcess cmd code), [cmd])
      | .ok _ =>
        match env.convertedNames.filter (fun p => ".txt".data.isSuffixOf (pyLower p).data) with
        | _ :: _ => (.ok (pyStrip env.firstTxtContent), [cmd])
        | [] => (.error (.runtimeError docNoToolMsg), [cmd])
    | none => (.error (.runtimeError docNoToolMsg), [])

/-- Concrete host: on the platform with the native converter, converter
present, but its invocation exits with code 3. -/
def envTextutilFail : DocEnv :=
  ⟨true, true, .error 3, false, .ok "", false, false, .ok "", [], ""⟩

/-- Concrete host: native converter absent, legacy reader present but its
invocation exits with code 4. -/
def envAntiwordFail : DocEnv :=
  ⟨false, true, .ok "", true, .error 4, false, false, .ok "", [], ""⟩

/-- Concrete host: only the office suite present, its conversion exits with
code 5. -/
def envSofficeFail : DocEnv :=
  ⟨false, false, .ok "", false, .ok "", true, false, .error 5, [], ""⟩

/-- Concrete host with no .doc backend available at all. -/
def envNoTools : DocEnv :=
  ⟨false, false, .ok "", false, .ok "", false, false, .ok "", [], ""⟩

/-- Split a character list at its last dot: the part before it and the part
from the dot on, or none when there is no dot. -/
def splitAtLastDot : List Char → Option (List Char × List Char)
  | [] => none
  | c :: rest =>
    match splitAtLastDot rest with
    | some (pre, ext) => some (c :: pre, ext)
    | none => if c == '.' then some ([], c :: rest) else none

/-- Embedding of the extension component of os.path.splitext: the suffix of
the basename from its last dot on, unless every character of the basename
before that dot is itself a dot (a leading-dots name has no extension). -/
def extOf (p : String) : String :=
  match splitAtLastDot (basename p).data with
  | none => ""
  | some (pre, ext) => if pre.any (fun c => c != '.') then ⟨ext⟩ else ""

/-- The four extraction routes of the dispatcher. -/
inductive Route where
  | docx
  | pdf
  | pptx
  | doc
deriving DecidableEq

/-- Diagnostic carried by the SystemExit raised on an unsupported
extension. -/
def unsupportedMsg (ext mime : String) : String :=
  "Unsupported file extension for python extraction: " ++ ext
    ++ (" (mime=" ++ mime ++ ")")

/-- Embedding of main up to routing: lower-case the path, take its
extension, route to an extractor, or fail with the unsupported-extension
diagnostic (a SystemExit with a message terminates the process with a
non-zero status). -/
def main_dispatch (path mime : String) : Except String Route :=
  let ext := extOf (pyLower path)
  if ext == ".docx" then .ok .docx
  else if ext == ".pdf" then .ok .pdf
  else if ext == ".pptx" then .ok .pptx
  else if ext == ".doc" then .ok .doc
  else .error (unsupportedMsg ext mime)

/-- Trim fixed-point property for a result that may carry a string:
a success value is unchanged by stripping, an error is unconstrained. -/
def exceptTrimFixed {ε : Type} : Except ε String → Prop
  | .ok s => pyStrip s = s
  | .error _ => True

end ExtractText

namespace ExtractText

theorem dropWhile_eq_cons_not {α : Type} {p : α → Bool} :
    ∀ {l : List α} {a : α} {t : List α}, l.dropWhile p = a :: t → p a = false := by
  intro l
  induction l with
  | nil => intro a t h; simp [List.dropWhile] at h
  | cons b bs ih =>
    intro a t h
    by_cases hb : p b
    · rw [List.dropWhile_cons_of_pos hb] at h
      exact ih h
    · rw [List.dropWhile_cons_of_neg hb] at h
      cases h
      simpa using hb

theorem dropWhile_self {α : Type} {p : α → Bool} (l : List α) :
    (l.dropWhile p).dropWhile p = l.dropWhile p := by
  cases h : l.dropWhile p with
  | nil => simp
  | cons a t =>
    have ha : p a = false := dropWhile_eq_cons_not h
    exact List.dropWhile_cons_of_neg (by simp [ha])

theorem stripChars_head_not (l : List Char) {a : Char} {t : List Char}
    (h : stripChars l = a :: t) : ws a = false := by
  have hsplit : l.dropWhile ws
      = stripChars l ++ ((l.dropWhile ws).reverse.takeWhile ws).reverse := by
    calc l.dropWhile ws
        = ((l.dropWhile ws).reverse).reverse := (List.reverse_reverse _).symm
      _ = ((l.dropWhile ws).reverse.takeWhile ws
            ++ (l.dropWhile ws).reverse.dropWhile ws).reverse := by
          rw [List.takeWhile_append_dropWhile]
      _ = ((l.dropWhile ws).reverse.dropWhile ws).reverse
            ++ ((l.dropWhile ws).reverse.takeWhile ws).reverse := by
          rw [List.reverse_append]
      _ = stripChars l ++ ((l.dropWhile ws).reverse.takeWhile ws).reverse := rfl
  rw [h] at hsplit
  exact dropWhile_eq_cons_not hsplit

theorem dropWhile_stripChars (l : List Char) :
    (stripChars l).dropWhile ws = stripChars l := by
  cases hc : stripChars l with
  | nil => simp
  | cons a t =>
    have ha : ws a = false := stripChars_head_not l hc
    exact List.dropWhile_cons_of_neg (by simp [ha])

theorem stripChars_idem (l : List Char) : stripChars (stripChars l) = stripChars l := by
  show (((stripChars l).dropWhile ws).reverse.dropWhile ws).reverse = stripChars l
  rw [dropWhile_stripChars]
  have h2 : (stripChars l).reverse = (l.dropWhile ws).reverse.dropWhile ws :=
    List.reverse_reverse _
  rw [h2, dropWhile_self]
  rfl

theorem pyStrip_idem (s : String) : pyStrip (pyStrip s) = pyStrip s := by
  show String.mk (stripChars (stripChars s.data)) = String.mk (stripChars s.data)
  rw [stripChars_idem]

theorem foldl_filterMap {α β : Type} (f : α → Option β) :
    ∀ (l : List α) (acc : List β),
      l.foldl (fun ps n => ps ++ (f n).toList) acc = acc ++ l.filterMap f := by
  intro l
  induction l with
  | nil => intro acc; simp
  | cons x xs ih =>
    intro acc
    cases h : f x with
    | none => simp [List.foldl_cons, h, ih]
    | some s => simp [List.foldl_cons, h, ih]

theorem foldl_keep {α : Type} (h : α → String) :
    ∀ (l : List α) (acc : List String),
      l.foldl (fun a p =>
        let t := h p
        if t != "" then a ++ [t] else a) acc
      = acc ++ ((l.map h).filter (fun t => t != "")) := by
  intro l
  induction l with
  | nil => intro acc; simp
  | cons x xs ih =>
    intro acc
    by_cases hx : h x != ""
    · simp only [List.foldl_cons, List.map_cons, List.filter_cons, hx, if_pos]
      rw [ih]
      simp
    · simp only [List.foldl_cons, List.map_cons, List.filter_cons]
      rw [Bool.not_eq_true] at hx
      simp only [hx, if_false]
      rw [ih]
      simp

theorem docxParagraphText_eq_spec (p : Xml) :
    docxParagraphText p = docxSpecParagraph p := by
  unfold docxParagraphText docxSpecParagraph
  rw [foldl_filterMap]
  simp

/-- C1: for every parsed word-processing document, extract_docx returns
exactly the text described by the specification pipeline: walk the paragraph
nodes in document order, render each paragraph by concatenating text runs
with tabs as a tab character and breaks as a newline, trim each paragraph,
drop the paragraphs that are empty after trimming, join the survivors with
single newlines and trim the whole result. -/
theorem extract_docx_eq_spec (root : Xml) : extract_docx root = docxSpecText root := by
  unfold extract_docx docxSpecText
  rw [foldl_keep]
  simp only [List.nil_append]
  have hfun : docxParagraphText = docxSpecParagraph := funext docxParagraphText_eq_spec
  rw [hfun]

theorem isPrefixOf_append_self : ∀ (sub y : List Char), sub.isPrefixOf (sub ++ y) = true := by
  intro sub
  induction sub with
  | nil => intro y; simp [List.isPrefixOf]
  | cons a t ih => intro y; simp [List.isPrefixOf, ih]

theorem listContains_append (x sub y : List Char) :
    listContains sub (x ++ sub ++ y) = true := by
  induction x with
  | nil =>
    show listContains sub (sub ++ y) = true
    cases hc : sub ++ y with
    | nil =>
      have hs : sub = [] := by
        cases sub with
        | nil => rfl
        | cons a t => simp at hc
      subst hs
      rfl
    | cons a t =>
      show (sub.isPrefixOf (a :: t) || listContains sub t) = true
      rw [← hc, isPrefixOf_append_self]
      rfl
  | cons a t ih =>
    show (sub.isPrefixOf (a :: (t ++ sub ++ y)) || listContains sub (t ++ sub ++ y)) = true
    rw [ih]
    simp

theorem strContains_append (a sub b : String) :
    strContains (a ++ sub ++ b) sub = true := by
  show listContains sub.data (a ++ sub ++ b).data = true
  rw [String.data_append, String.data_append]
  exact listContains_append a.data sub.data b.data

theorem pdfPagesText_eq (pages : List PdfPage) :
    pdfPagesText pages
      = pyStrip (String.intercalate "\n\n"
          ((pages.map (fun p => pyStrip (pdfPageRawText p))).filter (fun t => t != ""))) := by
  unfold pdfPagesText
  rw [foldl_keep]
  simp

/-- C3: a page whose extraction raises contributes the empty string, so it
is dropped like any blank page and the remaining pages are still returned:
with a reader constructed, extraction always succeeds, and its value is the
blank-line join of the stripped non-empty page texts. -/
theorem extract_pdf_page_failure_isolated :
    (∀ (xs ys : List PdfPage),
        pdfPagesText (xs ++ .error () :: ys) = pdfPagesText (xs ++ ys))
    ∧ (∀ (pages : List PdfPage) (t2 : Except PdfExc (List PdfPage)),
        extract_pdf ⟨.ok pages, t2⟩ = .ok (pdfPagesText pages))
    ∧ (∀ pages : List PdfPage,
        pdfPagesText pages
          = pyStrip (String.intercalate "\n\n"
              ((pages.map (fun p => pyStrip (pdfPageRawText p))).filter (fun t => t != "")))) := by
  refine ⟨?_, ?_, pdfPagesText_eq⟩
  · intro xs ys
    rw [pdfPagesText_eq, pdfPagesText_eq]
    simp [pdfPageRawText, pyStrip, stripChars]
  · intro pages t2
    rfl

/-- C7 counterexample: with pypdf importable but its reader construction
raising some other exception, and PyPDF2 absent, the extractor still fails
with the missing-library diagnostic, so the fatal failure is not restricted
to hosts with no backend installed. -/
theorem extract_pdf_fails_with_backend_installed :
    extract_pdf ⟨.error .otherError, .error .importError⟩ = .error pdfMissingMsg
    ∧ failedImport (PdfEnv.tryPypdf ⟨.error .otherError, .error .importError⟩) = false :=
  ⟨rfl, rfl⟩

/-- C7 amended: the missing-library RuntimeError is the only fatal error
path of extract_pdf and it is raised exactly when both reader constructions
raise, whatever the reason; the page loop itself never fails. -/
theorem extract_pdf_fatal_iff_both_constructions_fail (env : PdfEnv) :
    exOk (extract_pdf env) = (exOk env.tryPypdf || exOk env.tryPyPDF2)
    ∧ (extract_pdf env = .error pdfMissingMsg ∨ exOk (extract_pdf env) = true) := by
  obtain ⟨t1, t2⟩ := env
  cases t1 <;> cases t2 <;> simp [extract_pdf, exOk]

/-- C10: any exception from the first reader construction, not only a failed
import, silently falls through to the second backend; the missing-library
error is raised exactly when both constructions raise, and hence can be
raised when the first library is installed but its construction failed. -/
theorem pptx_loop_eq (zf : List ZipEntry) :
    ∀ (l : List String) (acc : List String),
      l.foldl (fun acc slide_name =>
        let texts := slideTexts (readEntry zf slide_name)
        if !texts.isEmpty then acc ++ [pyStrip (String.intercalate "\n" texts)]
        else acc) acc
      = acc ++ l.filterMap (fun n =>
          let texts := slideTexts (readEntry zf n)
          if texts.isEmpty then none
          else some (pyStrip (String.intercalate "\n" texts))) := by
  intro l
  induction l with
  | nil => intro acc; simp
  | cons x xs ih =>
    intro acc
    rw [List.foldl_cons, ih, List.filterMap_cons]
    cases hx : (slideTexts (readEntry zf x)).isEmpty with
    | true => simp [hx]
    | false => simp [hx]

theorem slideLe_trans (a b c : String) :
    slideLe a b = true → slideLe b c = true → slideLe a c = true := by
  simp only [slideLe, decide_eq_true_eq]
  omega

theorem slideLe_total (a b : String) : (slideLe a b || slideLe b a) = true := by
  simp only [slideLe, Bool.or_eq_true, decide_eq_true_eq]
  omega

/-- C2: extract_pptx orders slide entries by the numeric index embedded in
their filenames: the sorted name list is ascending in slide_index and is a
permutation of the entries matching the slide pattern; on entries with
indices 1, 10, 2 the order is 1, 2, 10 and differs from the lexical order;
a name with no digits gets index 0. -/
theorem extract_pptx_numeric_slide_order :
    (∀ zf : List ZipEntry,
        List.Pairwise (fun a b => slide_index a ≤ slide_index b) (sortedSlideNames zf))
    ∧ (∀ zf : List ZipEntry, List.Perm (sortedSlideNames zf) (slideNameList zf))
    ∧ sortedSlideNames
        [⟨"ppt/slides/slide1.xml", default⟩, ⟨"ppt/slides/slide10.xml", default⟩,
          ⟨"ppt/slides/slide2.xml", default⟩]
        = ["ppt/slides/slide1.xml", "ppt/slides/slide2.xml", "ppt/slides/slide10.xml"]
    ∧ ((["ppt/slides/slide1.xml", "ppt/slides/slide2.xml", "ppt/slides/slide10.xml"]
          == ["ppt/slides/slide1.xml", "ppt/slides/slide10.xml", "ppt/slides/slide2.xml"])
        = false)
    ∧ slide_index "ppt/slides/slide.xml" = 0 := by
  refine ⟨?_, ?_, ?_, by decide, by decide⟩
  · intro zf
    have h := @List.sorted_mergeSort String slideLe slideLe_trans slideLe_total
      (slideNameList zf)
    exact h.imp (fun hab => by
      simpa only [slideLe, decide_eq_true_eq] using hab)
  · intro zf
    exact List.mergeSort_perm (slideNameList zf) slideLe
  · simp +decide [sortedSlideNames, slideNameList, namelist, List.mergeSort,
      List.splitInTwo, List.splitAt, List.splitAt.go, List.merge]

/-- C9 counterexample: a slide whose only text node is a single space
contributes an empty block rather than nothing, so the emitted text contains
two consecutive blank-line separators. -/
theorem extract_pptx_whitespace_slide_cex :
    extract_pptx pptxWsZip = "A\n\n\n\nB"
    ∧ strContains (extract_pptx pptxWsZip) "\n\n\n\n" = true := by
  have hsort : sortedSlideNames pptxWsZip
      = ["ppt/slides/slide1.xml", "ppt/slides/slide2.xml", "ppt/slides/slide3.xml"] := by
    simp +decide [sortedSlideNames, slideNameList, namelist, pptxWsZip, List.mergeSort,
      List.splitInTwo, List.splitAt, List.splitAt.go, List.merge]
  have h1 : extract_pptx pptxWsZip = "A\n\n\n\nB" := by
    unfold extract_pptx
    rw [hsort]
    rfl
  exact ⟨h1, by rw [h1]; rfl⟩

theorem str_append_assoc (a b c : String) : (a ++ b) ++ c = a ++ (b ++ c) := by
  cases a with
  | mk la =>
    cases b with
    | mk lb =>
      cases c with
      | mk lc =>
        show String.mk ((la ++ lb) ++ lc) = String.mk (la ++ (lb ++ lc))
        rw [List.append_assoc]

/-- C4: a backend that probes present but whose invocation exits non-zero
makes the extractor fail with that CalledProcessError at once, with no later
backend invoked; and a later backend is invoked only when every earlier
candidate is absent. -/
theorem doc_backend_failure_propagates :
    (∀ (env : DocEnv) (code : Nat),
        env.isDarwin = true → env.textutilAtPath = true →
        env.textutilRun = .error code →
        extract_doc_via_system_tools env
          = (.error (.calledProcess "/usr/bin/textutil" code), ["/usr/bin/textutil"]))
    ∧ (∀ (env : DocEnv) (code : Nat),
        (env.isDarwin && env.textutilAtPath) = false →
        env.antiwordWhichOk = true →
        env.antiwordRun = .error code →
        extract_doc_via_system_tools env
          = (.error (.calledProcess "antiword" code), ["antiword"]))
    ∧ (∀ (env : DocEnv) (cmd : String) (code : Nat),
        (env.isDarwin && env.textutilAtPath) = false →
        env.antiwordWhichOk = false →
        sofficeCandidate env = some cmd →
        env.sofficeRun = .error code →
        extract_doc_via_system_tools env = (.error (.calledProcess cmd code), [cmd]))
    ∧ (∀ env : DocEnv,
        "antiword" ∈ (extract_doc_via_system_tools env).2 →
        (env.isDarwin && env.textutilAtPath) = false)
    ∧ (∀ (env : DocEnv) (cmd : String),
        (cmd = "soffice" ∨ cmd = "libreoffice") →
        cmd ∈ (extract_doc_via_system_tools env).2 →
        (env.isDarwin && env.textutilAtPath) = false
          ∧ env.antiwordWhichOk = false) := by
  refine ⟨?_, ?_, ?_, ?_, ?_⟩
  · intro env code h1 h2 h3
    simp [extract_doc_via_system_tools, h1, h2, h3]
  · intro env code h1 h2 h3
    simp [extract_doc_via_system_tools, h1, h2, h3]
  · intro env cmd code h1 h2 h3 h4
    simp [extract_doc_via_system_tools, h1, h2, h3, h4]
  · intro env h
    cases hd : env.isDarwin && env.textutilAtPath with
    | false => rfl
    | true =>
      exfalso
      unfold extract_doc_via_system_tools at h
      rw [hd] at h
      cases hr : env.textutilRun <;> rw [hr] at h <;> simp at h
  · intro env cmd hcmd hmem
    cases hd : env.isDarwin && env.textutilAtPath with
    | true =>
      exfalso
      unfold extract_doc_via_system_tools at hmem
      rw [hd] at hmem
      rcases hcmd with h | h <;> subst h <;>
        cases hr : env.textutilRun <;> rw [hr] at hmem <;> simp at hmem
    | false =>
      cases haw : env.antiwordWhichOk with
      | true =>
        exfalso
        unfold extract_doc_via_system_tools at hmem
        rw [hd, haw] at hmem
        rcases hcmd with h | h <;> subst h <;>
          cases hr : env.antiwordRun <;> rw [hr] at hmem <;> simp at hmem
      | false => exact ⟨rfl, rfl⟩

/-- C4 witness: concrete hosts exercising each failing backend and the
absence conditions for reaching the later ones. -/
theorem doc_backend_failure_propagates_witness :
    extract_doc_via_system_tools envTextutilFail
      = (.error (.calledProcess "/usr/bin/textutil" 3), ["/usr/bin/textutil"])
    ∧ extract_doc_via_system_tools envAntiwordFail
      = (.error (.calledProcess "antiword" 4), ["antiword"])
    ∧ extract_doc_via_system_tools envSofficeFail
      = (.error (.calledProcess "soffice" 5), ["soffice"])
    ∧ (envAntiwordFail.isDarwin && envAntiwordFail.textutilAtPath) = false
    ∧ ((envSofficeFail.isDarwin && envSofficeFail.textutilAtPath) = false
        ∧ envSofficeFail.antiwordWhichOk = false) :=
  ⟨doc_backend_failure_propagates.1 envTextutilFail 3 rfl rfl rfl,
   doc_backend_failure_propagates.2.1 envAntiwordFail 4 rfl rfl rfl,
   doc_backend_failure_propagates.2.2.1 envSofficeFail "soffice" 5 rfl rfl rfl rfl,
   doc_backend_failure_propagates.2.2.2.1 envAntiwordFail (by decide),
   doc_backend_failure_propagates.2.2.2.2 envSofficeFail "soffice" (Or.inl rfl) (by decide)⟩

/-- C5: when the platform converter does not apply and no probe succeeds,
the extractor fails with the RuntimeError whose message names both
remediations: converting to .docx and installing antiword or LibreOffice. -/
theorem doc_no_backend_config_error :
    ∀ env : DocEnv,
      (env.isDarwin && env.textutilAtPath) = false →
      env.antiwordWhichOk = false →
      env.sofficeWhichOk = false →
      env.libreofficeWhichOk = false →
      extract_doc_via_system_tools env = (.error (.runtimeError docNoToolMsg), [])
      ∧ strContains docNoToolMsg ".docx" = true
      ∧ strContains docNoToolMsg "antiword" = true
      ∧ strContains docNoToolMsg "LibreOffice" = true := by
  intro env h1 h2 h3 h4
  refine ⟨?_, by decide, by decide, by decide⟩
  simp [extract_doc_via_system_tools, sofficeCandidate, h1, h2, h3, h4]

/-- C5 witness: a concrete host with no backend at all. -/
theorem doc_no_backend_config_error_witness :
    extract_doc_via_system_tools envNoTools = (.error (.runtimeError docNoToolMsg), [])
    ∧ strContains docNoToolMsg ".docx" = true
    ∧ strContains docNoToolMsg "antiword" = true
    ∧ strContains docNoToolMsg "LibreOffice" = true :=
  doc_no_backend_config_error envNoTools rfl rfl rfl rfl

/-- C6 counterexample: for the path a.XYZ the extension actually given is
.XYZ, but the diagnostic contains only its lowercased form .xyz, so the
dispatcher does not report the literal extension it was given. -/
theorem dispatch_lowercases_reported_extension :
    main_dispatch "a.XYZ" "text/foo" = .error (unsupportedMsg ".xyz" "text/foo")
    ∧ strContains (unsupportedMsg ".xyz" "text/foo") ".XYZ" = false
    ∧ strContains (unsupportedMsg ".xyz" "text/foo") ".xyz" = true :=
  ⟨rfl, by decide, by decide⟩

/-- C6 amended: on any extension outside the supported set, matched on the
lowercased path, the dispatcher fails and its diagnostic contains the
lowercased extension and the MIME hint verbatim. -/
theorem dispatch_unsupported_reports_ext_and_mime :
    ∀ (path mime : String),
      ((extOf (pyLower path) == ".docx") || (extOf (pyLower path) == ".pdf")
        || (extOf (pyLower path) == ".pptx") || (extOf (pyLower path) == ".doc")) = false →
      main_dispatch path mime = .error (unsupportedMsg (extOf (pyLower path)) mime)
      ∧ strContains (unsupportedMsg (extOf (pyLower path)) mime) (extOf (pyLower path)) = true
      ∧ strContains (unsupportedMsg (extOf (pyLower path)) mime) mime = true := by
  intro path mime h
  simp only [Bool.or_eq_false_iff] at h
  obtain ⟨⟨⟨h1, h2⟩, h3⟩, h4⟩ := h
  refine ⟨?_, ?_, ?_⟩
  · simp [main_dispatch, h1, h2, h3, h4]
  · exact strContains_append _ _ _
  · have hshape : unsupportedMsg (extOf (pyLower path)) mime
        = (("Unsupported file extension for python extraction: "
              ++ extOf (pyLower path)) ++ " (mime=") ++ mime ++ ")" := by
      unfold unsupportedMsg
      simp [str_append_assoc]
    rw [hshape]
    exact strContains_append _ _ _

/-- C6 amended witness: a concrete unsupported invocation. -/
theorem dispatch_unsupported_reports_ext_and_mime_witness :
    main_dispatch "f.xyz" "text/foo"
      = .error (unsupportedMsg (extOf (pyLower "f.xyz")) "text/foo")
    ∧ strContains (unsupportedMsg (extOf (pyLower "f.xyz")) "text/foo")
        (extOf (pyLower "f.xyz")) = true
    ∧ strContains (unsupportedMsg (extOf (pyLower "f.xyz")) "text/foo") "text/foo" = true :=
  dispatch_unsupported_reports_ext_and_mime "f.xyz" "text/foo" (by decide)

/-- C8: every extractor emits text that stripping leaves unchanged: the
docx and pptx extractors always, and the pdf and legacy doc extractors on
every success value. -/
theorem extractors_emit_trimmed_text :
    (∀ root : Xml, pyStrip (extract_docx root) = extract_docx root)
    ∧ (∀ zf : List ZipEntry, pyStrip (extract_pptx zf) = extract_pptx zf)
    ∧ (∀ env : PdfEnv, exceptTrimFixed (extract_pdf env))
    ∧ (∀ env : DocEnv, exceptTrimFixed (extract_doc_via_system_tools env).1) := by
  refine ⟨?_, ?_, ?_, ?_⟩
  · intro root
    exact pyStrip_idem _
  · intro zf
    exact pyStrip_idem _
  · intro env
    obtain ⟨t1, t2⟩ := env
    cases t1 with
    | ok r => exact pyStrip_idem _
    | error e =>
      cases t2 with
      | ok r => exact pyStrip_idem _
      | error f => trivial
  · intro env
    unfold extract_doc_via_system_tools
    repeat' split
    all_goals first
    | exact pyStrip_idem _
    | trivial

/-- C9 amended: extract_pptx joins with blank lines the blocks of exactly
those slides having at least one truthy drawing-text node, in sorted slide
order; a slide with no truthy text node contributes nothing, while a slide
whose truthy texts are all whitespace contributes an empty block. -/
theorem extract_pptx_eq_blocks (zf : List ZipEntry) :
    extract_pptx zf = pyStrip (String.intercalate "\n\n" (pptxBlocks zf)) := by
  unfold extract_pptx pptxBlocks
  rw [pptx_loop_eq]
  simp

theorem extract_pdf_fallback_on_any_exception :
    (∀ (e : PdfExc) (t2 : Except PdfExc (List PdfPage)),
        extract_pdf ⟨.error e, t2⟩
          = match t2 with
            | .ok reader => .ok (pdfPagesText reader)
            | .error _ => .error pdfMissingMsg)
    ∧ (∀ env : PdfEnv,
        extract_pdf env = .error pdfMissingMsg
          ↔ exOk env.tryPypdf = false ∧ exOk env.tryPyPDF2 = false)
    ∧ (extract_pdf ⟨.error .otherError, .error .importError⟩ = .error pdfMissingMsg
        ∧ failedImport (PdfEnv.tryPypdf ⟨.error .otherError, .error .importError⟩) = false) := by
  refine ⟨?_, ?_, rfl, rfl⟩
  · intro e t2
    cases t2 <;> rfl
  · intro env
    obtain ⟨t1, t2⟩ := env
    cases t1 <;> cases t2 <;> simp [extract_pdf, exOk]

end ExtractText
